import Mathlib

/-!
Verification of the omni-demo generation pipeline.

This file gives a shallow embedding of the pipeline code: the seed deriver
and the stage calls that use it, the replicate proxy edge function
(authorization gate, submission, polling loop), the stage result
normalizer of the image and video stage functions, the three-stage
orchestrator (image, text removal, video) with its start-frame selection,
and the prompt fallback construction. JavaScript nullable strings are
modelled as `Option String`, and JavaScript truthiness checks on them are
made explicit through `tru`. Machine numbers are modelled as exact
integers (`Nat`/`Int`).
-/

set_option autoImplicit false

namespace OmniDemo

/-- Truthiness of a JavaScript nullable string value: `null` and the empty
string are falsy, every other string is truthy. -/
def tru : Option String → Bool
  | none => false
  | some s => s ≠ ""

/-- The JavaScript expression `a || b` on two nullable strings: the first
operand when it is truthy, otherwise the second. -/
def jsOr (a b : Option String) : Option String :=
  if tru a then a else b

/-- The JavaScript expression `a || d` where `a` is a nullable string and
`d` is a string default. -/
def jsOrD (a : Option String) (d : String) : String :=
  match a with
  | none => d
  | some s => if s = "" then d else s

/-! ### Seed deriver

Source: `generateSeedVariation` —
`const hash = (masterSeed + variation) * 9973; return Math.abs(hash) % 1000000;`
-/

/-- Seed deriver: multiply the shifted master seed by the large prime 9973
and reduce the absolute value modulo 1 000 000. -/
def generateSeedVariation (masterSeed variation : Int) : Int :=
  ((((masterSeed + variation) * 9973).natAbs % 1000000 : Nat) : Int)

/-! ### Per-stage seed calls

Each stage function computes its seed as
`generateSeedVariation(window.currentMasterSeed || generateBetterRandomSeed(), i)`
with the fixed stage index `i` (image = 1, seededit = 2, seedance = 3).
JavaScript treats the number `0` as falsy, so a current master seed of `0`
is replaced by a freshly drawn random seed.
-/

/-- The first argument each stage call actually passes to the deriver:
the current master seed unless it is falsy (`0`), in which case a fresh
random value is drawn. -/
def effectiveMasterSeed (currentMasterSeed freshRandom : Nat) : Nat :=
  if currentMasterSeed = 0 then freshRandom else currentMasterSeed

/-- The seed a stage call computes, given the global current master seed,
the ambient fresh randomness consulted by the falsy fallback, and the
fixed stage index. -/
def stageSeedCall (currentMasterSeed freshRandom stageIndex : Nat) : Int :=
  generateSeedVariation (effectiveMasterSeed currentMasterSeed freshRandom) stageIndex

/-- Stage index used by `generateImage`. -/
def imageStageIndex : Nat := 1

/-- Stage index used by `generateSeededit`. -/
def editStageIndex : Nat := 2

/-- Stage index used by `generateSeedanceVideo`. -/
def videoStageIndex : Nat := 3

/-- The triple of per-stage seeds one run computes from the current master
seed and the ambient fresh randomness. -/
def stageSeedTriple (currentMasterSeed freshRandom : Nat) : Int × Int × Int :=
  (stageSeedCall currentMasterSeed freshRandom imageStageIndex,
   stageSeedCall currentMasterSeed freshRandom editStageIndex,
   stageSeedCall currentMasterSeed freshRandom videoStageIndex)

/-- C8: for all integer inputs, the seed deriver returns
`abs((masterSeed + stageIndex) * 9973) mod 1_000_000`, and the result
always lies in `[0, 1_000_000)`; it is a pure total Lean function with no
side effects and no failure mode. -/
theorem seed_deriver_contract (m v : Int) :
    generateSeedVariation m v = |(m + v) * 9973| % 1000000
    ∧ 0 ≤ generateSeedVariation m v
    ∧ generateSeedVariation m v < 1000000 := by
  unfold generateSeedVariation
  have habs : |(m + v) * 9973| = (((m + v) * 9973).natAbs : Int) :=
    Int.abs_eq_natAbs _
  refine ⟨?_, Int.ofNat_nonneg _, ?_⟩
  · rw [habs, Int.natCast_mod]
    norm_num
  · exact_mod_cast Nat.mod_lt _ (by norm_num)

/-- C2, counterexample: master seed `0` lies in `[0, 1_000_000)`, yet two
runs of the pipeline with that master seed and different ambient fresh
randomness produce different image-stage seeds (JavaScript treats `0` as
falsy, so the fallback draws a fresh random seed), hence different
per-stage seed triples. -/
theorem seed_zero_not_reproducible :
    0 < 1000000
    ∧ stageSeedTriple 0 1 ≠ stageSeedTriple 0 2 := by
  refine ⟨by norm_num, ?_⟩
  decide

/-- C2, amended: for every nonzero master seed in `[1, 1_000_000)`,
re-running the pipeline with that master seed produces the same three
per-stage seeds regardless of the ambient fresh randomness, derived with
the fixed stage indices image = 1, edit = 2, video = 3; each stage seed is
then a pure function of the master seed and the stage index. -/
theorem seed_reproducible_of_nonzero (m r₁ r₂ : Nat)
    (hm : m ≠ 0) :
    stageSeedTriple m r₁ = stageSeedTriple m r₂
    ∧ stageSeedTriple m r₁ =
        (generateSeedVariation m 1, generateSeedVariation m 2,
         generateSeedVariation m 3) := by
  simp only [stageSeedTriple, stageSeedCall, effectiveMasterSeed,
    imageStageIndex, editStageIndex, videoStageIndex, if_neg hm]
  refine ⟨trivial, ?_⟩
  norm_num

/-- C2, witness for the amended theorem at master seed `5`. -/
theorem seed_reproducible_witness :
    stageSeedTriple 5 1 = stageSeedTriple 5 2
    ∧ stageSeedTriple 5 1 =
        (generateSeedVariation 5 1, generateSeedVariation 5 2,
         generateSeedVariation 5 3) :=
  seed_reproducible_of_nonzero 5 1 2 (by decide)

/-! ### Replicate proxy edge function

Source: `supabase/functions/replicate-proxy/index.ts`. The provider
response body is modelled by `JobEnvelope` (only the fields the proxy
reads), the polling loop by `pollFrom`, and the whole request handler by
`serveReplicateProxy`, which also counts the outbound submission and
status-fetch calls it performs.
-/

/-- The provider output field: an array of values, a direct string, or
absent. Array elements are modelled as strings. -/
inductive OutputField where
  | absent
  | str (s : String)
  | arr (elems : List String)
deriving DecidableEq

/-- The provider job envelope, restricted to the fields the code reads. -/
structure JobEnvelope where
  id : String
  status : String
  output : OutputField
  error : Option String
deriving DecidableEq

/-- Outcome of the polling loop. -/
inductive PollOutcome where
  | succeeded (e : JobEnvelope)
  | providerFailed (e : JobEnvelope)
  | timedOut
deriving DecidableEq

/-- The polling loop from iteration `i` with `n` attempts remaining. Each
iteration first waits one 2-unit interval, then fetches the job status:
`succeeded` returns at once, `failed` or `canceled` returns at once as a
provider failure, anything else continues; an exhausted budget is a
timeout. Returns the outcome together with the number of status fetches
performed and the total wait units spent. -/
def pollFrom (fetch : Nat → JobEnvelope) (i : Nat) : Nat → PollOutcome × Nat × Nat
  | 0 => (.timedOut, 0, 0)
  | n + 1 =>
    let pollData := fetch i
    if pollData.status = "succeeded" then
      (.succeeded pollData, 1, 2)
    else if pollData.status = "failed" ∨ pollData.status = "canceled" then
      (.providerFailed pollData, 1, 2)
    else
      let rest := pollFrom fetch (i + 1) n
      (rest.1, rest.2.1 + 1, rest.2.2 + 2)

/-- The proxy polling phase: up to 60 attempts, 2 time units before each. -/
def pollPrediction (fetch : Nat → JobEnvelope) : PollOutcome × Nat × Nat :=
  pollFrom fetch 0 60

/-- A principal returned by the identity provider. -/
structure UserRec where
  email : Option String
deriving DecidableEq

/-- String suffix test on the character sequences of the two strings,
modelling the JavaScript `endsWith` method. -/
def jsEndsWith (s t : String) : Bool :=
  if t.data.length ≤ s.data.length then
    decide (s.data.drop (s.data.length - t.data.length) = t.data)
  else false

/-- The domain check `user.email?.endsWith("@cloudwalk.io")`: an absent
email is falsy and fails the check. -/
def emailInDomain : Option String → Bool
  | none => false
  | some e => jsEndsWith e "@cloudwalk.io"

/-- Environment of one proxy request: the authorization header, the
identity-provider verdict (`none` models an auth error or missing user),
the server-held provider key, the immediate submission response, and the
status-fetch results observed during polling. -/
structure ServeEnv where
  authHeader : Option String
  authUser : Option UserRec
  replicateKey : Option String
  submitOk : Bool
  submitHttpStatus : Nat
  submitData : JobEnvelope
  pollFetch : Nat → JobEnvelope

/-- Body of the HTTP response the proxy produces. -/
inductive RespBody where
  | data (e : JobEnvelope)
  | err (msg : String)
deriving DecidableEq

/-- Result of one proxy request: HTTP status, body, and the number of
outbound submission and status-fetch calls made to the provider. -/
structure ServeResult where
  status : Nat
  body : RespBody
  submitCalls : Nat
  pollCalls : Nat
deriving DecidableEq

/-- The proxy request handler. A missing authorization header is thrown
and caught by the catch-all handler, yielding HTTP 500 with the thrown
message; a failed identity check yields 401; an email outside the fixed
organizational domain yields 403; a missing provider key yields 500. Only
then is the submission issued. A non-ok submission is forwarded with its
own status; a submission whose envelope status is `starting` or
`processing` enters the polling loop (succeeded gives 200, failed or
canceled gives 500, budget exhaustion gives 408); any other envelope is
returned at once with the default status 200. -/
def serveReplicateProxy (env : ServeEnv) : ServeResult :=
  match env.authHeader with
  | none => ⟨500, .err "Missing authorization header", 0, 0⟩
  | some _ =>
    match env.authUser with
    | none => ⟨401, .err "Unauthorized", 0, 0⟩
    | some user =>
      if emailInDomain user.email = false then
        ⟨403, .err "Access denied - Cloudwalk employees only", 0, 0⟩
      else
        match env.replicateKey with
        | none => ⟨500, .err "Replicate API key not configured", 0, 0⟩
        | some _ =>
          if env.submitOk = false then
            ⟨env.submitHttpStatus, .data env.submitData, 1, 0⟩
          else if env.submitData.status = "starting"
              ∨ env.submitData.status = "processing" then
            match pollPrediction env.pollFetch with
            | (.succeeded pollData, c, _) => ⟨200, .data pollData, 1, c⟩
            | (.providerFailed pollData, c, _) => ⟨500, .data pollData, 1, c⟩
            | (.timedOut, c, _) => ⟨408, .err "Prediction timed out", 1, c⟩
          else
            ⟨200, .data env.submitData, 1, 0⟩

/-- The polling loop performs at most as many fetches as it has budget. -/
theorem pollFrom_fetches_le (fetch : Nat → JobEnvelope) :
    ∀ n i, (pollFrom fetch i n).2.1 ≤ n := by
  intro n
  induction n with
  | zero => intro i; simp [pollFrom]
  | succ n ih =>
    intro i
    unfold pollFrom
    dsimp only
    split
    · simp
    · split
      · simp
      · have := ih (i + 1)
        show (pollFrom fetch (i + 1) n).2.1 + 1 ≤ n + 1
        omega

/-- If every fetched status up to the remaining budget is non-terminal,
the polling loop exhausts its whole budget and times out. -/
theorem pollFrom_timeout (fetch : Nat → JobEnvelope) :
    ∀ n i,
      (∀ j, j < n →
        (fetch (i + j)).status = "starting"
        ∨ (fetch (i + j)).status = "processing") →
      pollFrom fetch i n = (.timedOut, n, 2 * n) := by
  intro n
  induction n with
  | zero => intro i _; simp [pollFrom]
  | succ n ih =>
    intro i h
    have h0 : (fetch i).status = "starting" ∨ (fetch i).status = "processing" := by
      have := h 0 (Nat.succ_pos n)
      simpa using this
    have hne1 : (fetch i).status ≠ "succeeded" := by
      rcases h0 with h0 | h0 <;> rw [h0] <;> decide
    have hne2 : ¬((fetch i).status = "failed" ∨ (fetch i).status = "canceled") := by
      rcases h0 with h0 | h0 <;> rw [h0] <;> decide
    have htail : pollFrom fetch (i + 1) n = (.timedOut, n, 2 * n) := by
      apply ih
      intro j hj
      have := h (j + 1) (by omega)
      simpa [Nat.add_assoc, Nat.add_comm 1 j] using this
    unfold pollFrom
    rw [if_neg hne1, if_neg hne2]
    simp only [htail]
    refine congrArg _ ?_
    constructor

/-- C1: if every status fetch returns a non-terminal status (`starting` or
`processing`), the polling loop performs exactly 60 fetches, spending one
2-unit wait interval before each (120 wait units in total), and returns
the timeout outcome, which is distinct from every provider-reported
failure outcome; moreover, for every status-fetch behaviour the loop
performs at most 60 fetches, so it never runs indefinitely. -/
theorem poller_timeout_after_sixty (fetch : Nat → JobEnvelope)
    (h : ∀ i, i < 60 →
      (fetch i).status = "starting" ∨ (fetch i).status = "processing") :
    pollPrediction fetch = (.timedOut, 60, 120)
    ∧ (∀ e, PollOutcome.timedOut ≠ PollOutcome.providerFailed e)
    ∧ (∀ g : Nat → JobEnvelope, (pollPrediction g).2.1 ≤ 60) := by
  refine ⟨?_, ?_, fun g => pollFrom_fetches_le g 60 0⟩
  · have := pollFrom_timeout fetch 60 0 (by intro j hj; simpa using h j hj)
    simpa using this
  · intro e hcontra
    cases hcontra

/-- A job envelope that always reports `processing`. -/
def processingEnvelope : JobEnvelope :=
  { id := "p1", status := "processing", output := .absent, error := none }

/-- C1, witness: a status fetch that always answers `processing` makes the
poller time out after exactly 60 attempts. -/
theorem poller_timeout_after_sixty_witness :
    pollPrediction (fun _ => processingEnvelope) = (.timedOut, 60, 120)
    ∧ (∀ e, PollOutcome.timedOut ≠ PollOutcome.providerFailed e)
    ∧ (∀ g : Nat → JobEnvelope, (pollPrediction g).2.1 ≤ 60) :=
  poller_timeout_after_sixty (fun _ => processingEnvelope)
    (fun _ _ => Or.inr rfl)

/-- C3: the authorization gate of the proxy. A missing credential is
rejected with HTTP 500 carrying the thrown message, an unauthorized
principal with HTTP 401, and a valid credential whose principal email
lies outside the fixed organizational domain with HTTP 403 Forbidden; in
all three cases no submission and no status fetch is issued to the remote
provider, and the three statuses are pairwise distinct, hence machine
checkable. -/
theorem authorization_gate (env : ServeEnv) :
    (env.authHeader = none →
      serveReplicateProxy env = ⟨500, .err "Missing authorization header", 0, 0⟩)
    ∧ (∀ t, env.authHeader = some t → env.authUser = none →
      serveReplicateProxy env = ⟨401, .err "Unauthorized", 0, 0⟩)
    ∧ (∀ t u, env.authHeader = some t → env.authUser = some u →
      emailInDomain u.email = false →
      serveReplicateProxy env =
        ⟨403, .err "Access denied - Cloudwalk employees only", 0, 0⟩)
    ∧ ((500 : Nat) ≠ 401 ∧ (500 : Nat) ≠ 403 ∧ (401 : Nat) ≠ 403) := by
  refine ⟨?_, ?_, ?_, by omega, by omega, by omega⟩
  · intro hnone
    simp [serveReplicateProxy, hnone]
  · intro t ht hu
    simp [serveReplicateProxy, ht, hu]
  · intro t u ht hu hdom
    simp [serveReplicateProxy, ht, hu, hdom]

/-- An envelope used by concrete witnesses. -/
def idleEnvelope : JobEnvelope :=
  { id := "p0", status := "starting", output := .absent, error := none }

/-- A proxy environment whose credential verifies to a principal with an
email outside the organizational domain. -/
def wrongDomainEnv : ServeEnv :=
  { authHeader := some "Bearer tok"
    authUser := some { email := some "eve@example.com" }
    replicateKey := some "key"
    submitOk := true
    submitHttpStatus := 201
    submitData := idleEnvelope
    pollFetch := fun _ => idleEnvelope }

/-- C3, witness: a valid credential with an email outside the fixed
organizational domain is rejected with 403 and zero outbound provider
calls. -/
theorem authorization_gate_witness :
    serveReplicateProxy wrongDomainEnv =
      ⟨403, .err "Access denied - Cloudwalk employees only", 0, 0⟩ :=
  (authorization_gate wrongDomainEnv).2.2.1 "Bearer tok"
    { email := some "eve@example.com" } rfl rfl (by decide)

/-- C10: when authorization and submission succeed and the immediate
submission envelope has a status other than `starting` and `processing`,
the proxy returns that envelope at once with HTTP 200 and performs no
status fetch — in particular an immediate `failed` or `canceled` envelope
is returned with 200 — whereas the same `failed` or `canceled` status
observed on the first poll of a `starting` or `processing` submission is
returned with HTTP 500. -/
theorem immediate_envelope_skips_polling (env : ServeEnv)
    (t : String) (u : UserRec) (k : String)
    (ht : env.authHeader = some t) (hu : env.authUser = some u)
    (hdom : emailInDomain u.email = true)
    (hk : env.replicateKey = some k) (hok : env.submitOk = true) :
    (env.submitData.status ≠ "starting" → env.submitData.status ≠ "processing" →
      serveReplicateProxy env = ⟨200, .data env.submitData, 1, 0⟩)
    ∧ (env.submitData.status = "failed" ∨ env.submitData.status = "canceled" →
      serveReplicateProxy env = ⟨200, .data env.submitData, 1, 0⟩)
    ∧ (env.submitData.status = "starting" ∨ env.submitData.status = "processing" →
      (env.pollFetch 0).status = "failed" ∨ (env.pollFetch 0).status = "canceled" →
      serveReplicateProxy env = ⟨500, .data (env.pollFetch 0), 1, 1⟩) := by
  have hdom' : ¬ emailInDomain u.email = false := by simp [hdom]
  refine ⟨?_, ?_, ?_⟩
  · intro h1 h2
    simp [serveReplicateProxy, ht, hu, hdom', hk, hok, h1, h2]
  · intro hfc
    have h1 : env.submitData.status ≠ "starting" := by
      rcases hfc with h | h <;> rw [h] <;> decide
    have h2 : env.submitData.status ≠ "processing" := by
      rcases hfc with h | h <;> rw [h] <;> decide
    simp [serveReplicateProxy, ht, hu, hdom', hk, hok, h1, h2]
  · intro hsp hfc
    have hpoll : pollPrediction env.pollFetch =
        (.providerFailed (env.pollFetch 0), 1, 2) := by
      have hne1 : (env.pollFetch 0).status ≠ "succeeded" := by
        rcases hfc with h | h <;> rw [h] <;> decide
      show pollFrom env.pollFetch 0 60 = _
      unfold pollFrom
      rw [if_neg hne1, if_pos hfc]
    simp [serveReplicateProxy, ht, hu, hdom', hk, hok, hsp, hpoll]

/-- A `canceled` envelope. -/
def canceledEnvelope : JobEnvelope :=
  { id := "p2", status := "canceled", output := .absent, error := some "stop" }

/-- A proxy environment whose submission immediately reports `canceled`. -/
def immediateCanceledEnv : ServeEnv :=
  { authHeader := some "Bearer tok"
    authUser := some { email := some "dev@cloudwalk.io" }
    replicateKey := some "key"
    submitOk := true
    submitHttpStatus := 201
    submitData := canceledEnvelope
    pollFetch := fun _ => canceledEnvelope }

/-- C10, witness: an immediately `canceled` submission envelope is
returned with HTTP 200 and no polling. -/
theorem immediate_envelope_skips_polling_witness :
    serveReplicateProxy immediateCanceledEnv =
      ⟨200, .data canceledEnvelope, 1, 0⟩ :=
  (immediate_envelope_skips_polling immediateCanceledEnv "Bearer tok"
      { email := some "dev@cloudwalk.io" } "key" rfl rfl (by decide) rfl rfl).2.1
    (Or.inr rfl)

/-! ### URL validation

Modelled from the spec: the platform URL constructor (`new URL(...)`) used
by the stage functions is not part of the repository; the spec requires a
candidate to parse as a well-formed absolute URL, with `http` or `https`
scheme where the stage functions additionally check the protocol. The
model covers absolute-URL scheme parsing (a leading ASCII letter followed
by letters, digits, `+`, `-` or `.`, then a colon) and the nonempty-host
requirement of the special schemes.
-/

/-- Scheme start character of a URL: an ASCII letter. -/
def isSchemeStartChar (c : Char) : Bool :=
  (decide ('a' ≤ c) && decide (c ≤ 'z')) || (decide ('A' ≤ c) && decide (c ≤ 'Z'))

/-- Scheme continuation character of a URL. -/
def isSchemeChar (c : Char) : Bool :=
  isSchemeStartChar c || (decide ('0' ≤ c) && decide (c ≤ '9'))
    || decide (c = '+') || decide (c = '-') || decide (c = '.')

/-- Split the characters following the first one into the scheme body and
the remainder after the colon; fails when no colon terminates a run of
scheme characters. -/
def schemeSplit : List Char → Option (List Char × List Char)
  | [] => none
  | c :: cs =>
    if c = ':' then some ([], cs)
    else if isSchemeChar c then
      match schemeSplit cs with
      | some (sch, rest) => some (c :: sch, rest)
      | none => none
    else none

/-- Special schemes whose authority must carry a nonempty host. -/
def isSpecialScheme (p : String) : Bool :=
  p = "http:" || p = "https:" || p = "ws:" || p = "wss:" || p = "ftp:"

/-- Modelled from the spec: the protocol of the string when the platform
URL constructor accepts it as an absolute URL, `none` when the
constructor throws. -/
def urlProtocol (s : String) : Option String :=
  match s.data with
  | [] => none
  | c :: cs =>
    if isSchemeStartChar c then
      match schemeSplit cs with
      | some (sch, rest) =>
        let proto := String.mk ((c :: sch).map Char.toLower) ++ ":"
        if isSpecialScheme proto then
          let afterSlashes := rest.dropWhile (fun d => decide (d = '/') || decide (d = '\\'))
          let host := afterSlashes.takeWhile
            (fun d => !(decide (d = '/') || decide (d = '?') || decide (d = '#') || decide (d = '\\')))
          if host.isEmpty then none else some proto
        else some proto
      | none => none
    else none

/-- Whether `new URL(s)` succeeds, as used by the start-frame validation
of the orchestrator (no protocol restriction there). -/
def urlParses (s : String) : Bool :=
  (urlProtocol s).isSome

/-- The stage-function validation: the candidate parses as an absolute
URL and its protocol is `http:` or `https:`. -/
def isValidMediaUrl (s : String) : Bool :=
  match urlProtocol s with
  | some p => p = "http:" || p = "https:"
  | none => false

/-! ### Stage result normalizer

Source: the output extraction and URL validation shared by
`generateImage` and `generateSeedanceVideo`: a truthy `result.output`
that is a nonempty array yields its first element, a string yields
itself, anything else leaves the extracted value null; a falsy extracted
value or a failed URL validation raises, which the surrounding catch
turns into a failed stage (null result).
-/

/-- Result of normalizing a provider output field. -/
inductive NormResult where
  | ok (url : String)
  | invalidOutput
deriving DecidableEq

/-- Truthiness of the provider `output` field: absent is falsy, a string
is truthy when nonempty, an array is always truthy. -/
def outputTruthy : OutputField → Bool
  | .absent => false
  | .str s => s ≠ ""
  | .arr _ => true

/-- The extraction step: first element of a nonempty array, the string
itself, and null otherwise. -/
def extractOutput (output : OutputField) : Option String :=
  if outputTruthy output then
    match output with
    | .arr (x :: _) => some x
    | .str s => some s
    | _ => none
  else none

/-- The full normalization: a falsy extracted candidate or one that fails
URL validation is rejected as invalid output; only a candidate that
parses as an absolute `http`/`https` URL is propagated. -/
def normalizeOutput (output : OutputField) : NormResult :=
  match extractOutput output with
  | some c =>
    if c = "" then .invalidOutput
    else if isValidMediaUrl c then .ok c
    else .invalidOutput
  | none => .invalidOutput

/-- C4: the normalizer takes the first element of an array output and the
value of a string output, accepts a candidate exactly when it is a
well-formed absolute `http`/`https` URL, reports invalid output when the
output is absent, an empty array, or fails URL validation, and never
propagates a malformed reference: every accepted value is the extracted
candidate itself and passes URL validation. -/
theorem normalizer_validation :
    (∀ x xs, x ≠ "" → isValidMediaUrl x = true →
      normalizeOutput (.arr (x :: xs)) = .ok x)
    ∧ (∀ s, s ≠ "" → isValidMediaUrl s = true →
      normalizeOutput (.str s) = .ok s)
    ∧ normalizeOutput .absent = .invalidOutput
    ∧ normalizeOutput (.arr []) = .invalidOutput
    ∧ (∀ o c, extractOutput o = some c → isValidMediaUrl c = false →
      normalizeOutput o = .invalidOutput)
    ∧ (∀ o u, normalizeOutput o = .ok u →
      isValidMediaUrl u = true ∧ extractOutput o = some u) := by
  refine ⟨?_, ?_, rfl, rfl, ?_, ?_⟩
  · intro x xs hx hvalid
    simp [normalizeOutput, extractOutput, outputTruthy, hx, hvalid]
  · intro s hs hvalid
    simp [normalizeOutput, extractOutput, outputTruthy, hs, hvalid]
  · intro o c hextract hinvalid
    simp only [normalizeOutput, hextract]
    by_cases hc : c = ""
    · simp [hc]
    · simp [hc, hinvalid]
  · intro o u
    simp only [normalizeOutput]
    match hx : extractOutput o with
    | none => intro h; cases h
    | some c =>
      by_cases hc : c = ""
      · simp [hc]
      · by_cases hv : isValidMediaUrl c
        · simp only [if_neg hc, if_pos hv]
          intro h
          cases h
          exact ⟨hv, rfl⟩
        · simp [hc, hv]

/-- C4, witness: the array `["https://a/b.png"]` normalizes to its first
element, which passes URL validation. -/
theorem normalizer_validation_witness :
    normalizeOutput (.arr ["https://a/b.png"]) = .ok "https://a/b.png" :=
  normalizer_validation.1 "https://a/b.png" [] (by decide) (by decide)

/-! ### Pipeline orchestrator

Source: the generation handler. Step 1 runs `generateImage` when the
image checkbox is enabled; step 2 runs `generateSeededit` only when the
seededit checkbox is enabled and the image URL is truthy, otherwise it
reports the unavailable upstream or the disabled checkbox; step 3, when
the seedance checkbox is enabled, selects a start frame (the edited image
preferred over the original via `||`, kept only when it is truthy and
`new URL` accepts it) and always calls `generateSeedanceVideo`, which
attaches the start frame to its request only when one is provided. The
net effects of the remote stages are supplied as oracles in `RunEnv`.
-/

/-- The caller-facing configuration checkboxes. -/
structure Config where
  enableImage : Bool
  enableSeededit : Bool
  enableSeedance : Bool
  useStartFrame : Bool
deriving DecidableEq

/-- Environment of one run: the master seed stored globally at run start,
the ambient fresh randomness consulted only through the falsy fallback of
the stage seed calls, the net results the remote stages would produce
when invoked, and the video prompt. -/
structure RunEnv where
  masterSeed : Nat
  freshSeed : Nat
  imageOutcome : Option String
  editOutcome : Option String
  videoOutcome : Option String
  videoPrompt : String

/-- Observable effect of one `generateSeededit` call: its returned value,
the number of submissions it issued, and the status text it reported. -/
structure EditCall where
  result : Option String
  submissions : Nat
  status : String
deriving DecidableEq

/-- Model of `generateSeededit`: a falsy image argument is rejected by the
null guard before any submission; otherwise one submission is issued and
the oracle outcome is returned, with the corresponding status text. -/
def generateSeededitModel (imageUrl : Option String) (outcome : Option String) :
    EditCall :=
  if tru imageUrl then
    ⟨outcome, 1, if tru outcome then "Done." else "Text removal failed."⟩
  else
    ⟨none, 0, "No image to process."⟩

/-- The request body `input` that `generateSeedanceVideo` submits. -/
structure VideoInput where
  prompt : String
  duration : Nat
  resolution : String
  aspect_ratio : String
  fps : Nat
  camera_fixed : Bool
  seed : Int
  image : Option String
deriving DecidableEq

/-- The body built by `generateSeedanceVideo`: fixed parameters, the
video-stage seed, and the start frame attached only when it is truthy. -/
def seedanceBody (masterSeed freshSeed : Nat) (videoPrompt : String)
    (startFrameUrl : Option String) : VideoInput :=
  { prompt := videoPrompt
    duration := 5
    resolution := "480p"
    aspect_ratio := "16:9"
    fps := 24
    camera_fixed := false
    seed := stageSeedCall masterSeed freshSeed videoStageIndex
    image := if tru startFrameUrl then startFrameUrl else none }

/-- Observable effect of one `generateSeedanceVideo` call. -/
structure VideoCall where
  request : VideoInput
  submissions : Nat
  result : Option String
  status : String
deriving DecidableEq

/-- Model of `generateSeedanceVideo`: one submission carrying the built
body, returning the oracle outcome with the corresponding status text. -/
def generateSeedanceVideoModel (masterSeed freshSeed : Nat)
    (videoPrompt : String) (startFrameUrl : Option String)
    (outcome : Option String) : VideoCall :=
  { request := seedanceBody masterSeed freshSeed videoPrompt startFrameUrl
    submissions := 1
    result := outcome
    status := if tru outcome then "Done." else "Seedance video generation failed." }

/-- Observable result of one run of the generation handler. -/
structure RunResult where
  imageUrl : Option String
  editedImageUrl : Option String
  seedanceUrl : Option String
  imageStatus : String
  seededitStatus : String
  seedanceStatus : String
  imageSubmissions : Nat
  editSubmissions : Nat
  videoSubmissions : Nat
  videoRequest : Option VideoInput
deriving DecidableEq

/-- The three-step generation handler. -/
def runPipeline (cfg : Config) (env : RunEnv) : RunResult :=
  let image : Option String × Nat × String :=
    if cfg.enableImage then
      (env.imageOutcome, 1,
        if tru env.imageOutcome then "Done." else "Image generation failed.")
    else
      (none, 0, "Disabled (checkbox unchecked)")
  let imageUrl := image.1
  let edit : EditCall :=
    if cfg.enableSeededit && tru imageUrl then
      generateSeededitModel imageUrl env.editOutcome
    else if cfg.enableSeededit && !tru imageUrl then
      ⟨none, 0, "No image to process (image generation disabled or failed)"⟩
    else
      ⟨none, 0, "Disabled (checkbox unchecked)"⟩
  let editedImageUrl := edit.result
  if cfg.enableSeedance then
    let startFrameUrl : Option String :=
      if cfg.useStartFrame then
        let candidateUrl := jsOr editedImageUrl imageUrl
        if tru candidateUrl then
          if urlParses (candidateUrl.getD "") then candidateUrl else none
        else none
      else none
    let video := generateSeedanceVideoModel env.masterSeed env.freshSeed
      env.videoPrompt startFrameUrl env.videoOutcome
    { imageUrl := imageUrl
      editedImageUrl := editedImageUrl
      seedanceUrl := video.result
      imageStatus := image.2.2
      seededitStatus := edit.status
      seedanceStatus := video.status
      imageSubmissions := image.2.1
      editSubmissions := edit.submissions
      videoSubmissions := video.submissions
      videoRequest := some video.request }
  else
    { imageUrl := imageUrl
      editedImageUrl := editedImageUrl
      seedanceUrl := none
      imageStatus := image.2.2
      seededitStatus := edit.status
      seedanceStatus := "Disabled (checkbox unchecked)"
      imageSubmissions := image.2.1
      editSubmissions := edit.submissions
      videoSubmissions := 0
      videoRequest := none }

/-- C5: whenever the image stage is disabled or produced no output and
the edit stage is enabled, the edit stage is never attempted: no edit
submission is issued, and the run reports the edit stage as skipped
because of the unavailable upstream image — a status distinct from the
failure status the edit stage reports for its own failures. -/
theorem edit_skipped_on_unavailable_upstream (cfg : Config) (env : RunEnv)
    (hedit : cfg.enableSeededit = true)
    (himg : cfg.enableImage = false ∨ env.imageOutcome = none) :
    (runPipeline cfg env).editSubmissions = 0
    ∧ (runPipeline cfg env).seededitStatus =
        "No image to process (image generation disabled or failed)"
    ∧ "No image to process (image generation disabled or failed)" ≠
        "Text removal failed." := by
  have himgurl : tru (if cfg.enableImage then
      (env.imageOutcome, 1,
        if tru env.imageOutcome then "Done." else "Image generation failed.")
    else
      ((none : Option String), 0, "Disabled (checkbox unchecked)")).1 = false := by
    rcases himg with h | h
    · simp [h, tru]
    · by_cases hci : cfg.enableImage <;> simp [h, hci, tru]
  constructor
  · simp only [runPipeline]
    split <;> simp [himgurl, hedit]
  constructor
  · simp only [runPipeline]
    split <;> simp [himgurl, hedit]
  · decide

/-- C5, witness: image disabled, edit enabled, video disabled. -/
theorem edit_skipped_on_unavailable_upstream_witness :
    (runPipeline ⟨false, true, false, false⟩
        ⟨7, 3, none, none, none, "vp"⟩).editSubmissions = 0
    ∧ (runPipeline ⟨false, true, false, false⟩
        ⟨7, 3, none, none, none, "vp"⟩).seededitStatus =
        "No image to process (image generation disabled or failed)"
    ∧ "No image to process (image generation disabled or failed)" ≠
        "Text removal failed." :=
  edit_skipped_on_unavailable_upstream ⟨false, true, false, false⟩
    ⟨7, 3, none, none, none, "vp"⟩ rfl (Or.inl rfl)

/-- C6: when use-start-frame is enabled and both the image stage and the
edit stage succeeded, the submitted video request carries the edit output
as its input image: the edit output is preferred over the image output
when both exist. -/
theorem start_frame_prefers_edit_output (cfg : Config) (env : RunEnv)
    (urlA urlB : String)
    (hI : cfg.enableImage = true) (hE : cfg.enableSeededit = true)
    (hS : cfg.enableSeedance = true) (hU : cfg.useStartFrame = true)
    (hA : env.imageOutcome = some urlA) (hAne : urlA ≠ "")
    (hB : env.editOutcome = some urlB) (hBne : urlB ≠ "")
    (hBurl : urlParses urlB = true) :
    (runPipeline cfg env).videoRequest =
      some (seedanceBody env.masterSeed env.freshSeed env.videoPrompt (some urlB))
    ∧ (seedanceBody env.masterSeed env.freshSeed env.videoPrompt
        (some urlB)).image = some urlB := by
  constructor
  · simp [runPipeline, generateSeededitModel, generateSeedanceVideoModel,
      jsOr, tru, hI, hE, hS, hU, hA, hAne, hB, hBne, hBurl]
  · simp [seedanceBody, tru, hBne]

/-- C6, witness: all stages enabled, image and edit succeed with distinct
URLs; the video request carries the edit URL. -/
theorem start_frame_prefers_edit_output_witness :
    (runPipeline ⟨true, true, true, true⟩
        ⟨7, 3, some "https://a/x.png", some "https://b/y.png", some "https://c/z.mp4",
          "vp"⟩).videoRequest =
      some (seedanceBody 7 3 "vp" (some "https://b/y.png"))
    ∧ (seedanceBody 7 3 "vp" (some "https://b/y.png")).image =
        some "https://b/y.png" :=
  start_frame_prefers_edit_output ⟨true, true, true, true⟩
    ⟨7, 3, some "https://a/x.png", some "https://b/y.png", some "https://c/z.mp4", "vp"⟩
    "https://a/x.png" "https://b/y.png" rfl rfl rfl rfl rfl (by decide) rfl
    (by decide) (by decide)

/-- C7: when use-start-frame is enabled but the image output is
unavailable (image disabled or failed, which also leaves the edit stage
without output), the video stage still submits its request, that request
carries no input-image field, and a successful video outcome is reported
as done — the degraded continuation is not an error. -/
theorem degraded_continuation_without_start_frame (cfg : Config) (env : RunEnv)
    (hS : cfg.enableSeedance = true) (hU : cfg.useStartFrame = true)
    (himg : cfg.enableImage = false ∨ env.imageOutcome = none) :
    (runPipeline cfg env).videoRequest =
      some (seedanceBody env.masterSeed env.freshSeed env.videoPrompt none)
    ∧ (seedanceBody env.masterSeed env.freshSeed env.videoPrompt none).image = none
    ∧ (runPipeline cfg env).videoSubmissions = 1
    ∧ (tru env.videoOutcome = true →
        (runPipeline cfg env).seedanceStatus = "Done.") := by
  have himgurl : tru (if cfg.enableImage then
      (env.imageOutcome, 1,
        if tru env.imageOutcome then "Done." else "Image generation failed.")
    else
      ((none : Option String), 0, "Disabled (checkbox unchecked)")).1 = false := by
    rcases himg with h | h
    · simp [h, tru]
    · by_cases hci : cfg.enableImage <;> simp [h, hci, tru]
  refine ⟨?_, by simp [seedanceBody, tru], ?_, ?_⟩
  · rcases himg with h | h
    · by_cases hE : cfg.enableSeededit <;>
        simp [runPipeline, h, hS, hU, hE, generateSeededitModel,
          generateSeedanceVideoModel, jsOr, tru]
    · by_cases hci : cfg.enableImage <;> by_cases hE : cfg.enableSeededit <;>
        simp [runPipeline, h, hci, hS, hU, hE, generateSeededitModel,
          generateSeedanceVideoModel, jsOr, tru]
  · simp only [runPipeline, himgurl]
    simp [hS, generateSeedanceVideoModel]
  · intro hv
    simp only [runPipeline, himgurl]
    simp [hS, generateSeedanceVideoModel, hv]

/-- C7, witness: image and edit disabled, video enabled with
use-start-frame; the request carries no image and the video reports
done. -/
theorem degraded_continuation_without_start_frame_witness :
    (runPipeline ⟨false, false, true, true⟩
        ⟨7, 3, none, none, some "https://c/z.mp4", "vp"⟩).videoRequest =
      some (seedanceBody 7 3 "vp" none)
    ∧ (seedanceBody 7 3 "vp" none).image = none
    ∧ (runPipeline ⟨false, false, true, true⟩
        ⟨7, 3, none, none, some "https://c/z.mp4", "vp"⟩).videoSubmissions = 1
    ∧ (tru (some "https://c/z.mp4") = true →
        (runPipeline ⟨false, false, true, true⟩
          ⟨7, 3, none, none, some "https://c/z.mp4", "vp"⟩).seedanceStatus =
          "Done.") :=
  degraded_continuation_without_start_frame ⟨false, false, true, true⟩
    ⟨7, 3, none, none, some "https://c/z.mp4", "vp"⟩ rfl rfl (Or.inl rfl)

/-! ### Prompt fallback construction

Source: the fallback block of `callOpenAIForPrompts`. A missing
`image_prompt` or `video_prompt` is rebuilt from the profile (city, cnae
business type, product callout) together with per-run random style
selections (time of day, ethnicity, idle action) and the b-roll text; a
missing `overlay_text` or `button_text` receives a fixed constant. String
helpers model the JavaScript `split`/`includes` methods on character
sequences.
-/

/-- Whether the second list begins with the first. -/
def leadsWith : List Char → List Char → Bool
  | [], _ => true
  | _ :: _, [] => false
  | a :: as, b :: bs => decide (a = b) && leadsWith as bs

/-- The remainder after the first occurrence of the separator, `none`
when the separator does not occur. -/
def afterSeparator (sep : List Char) : List Char → Option (List Char)
  | [] => none
  | c :: cs =>
    if leadsWith sep (c :: cs) then some (List.drop sep.length (c :: cs))
    else afterSeparator sep cs

/-- The segment before the first occurrence of the separator (the whole
list when the separator does not occur). -/
def beforeSeparator (sep : List Char) : List Char → List Char
  | [] => []
  | c :: cs =>
    if leadsWith sep (c :: cs) then []
    else c :: beforeSeparator sep cs

/-- Element 1 of the JavaScript `split(sep)` result: the segment between
the first and second occurrences of the separator; `none` models the
undefined element when the separator does not occur. -/
def splitSecond (sep s : String) : Option String :=
  match afterSeparator sep.data s.data with
  | none => none
  | some rest => some (String.mk (beforeSeparator sep.data rest))

/-- Substring occurrence, modelling the JavaScript `includes` method. -/
def containsChars (sub : List Char) : List Char → Bool
  | [] => leadsWith sub []
  | c :: cs => leadsWith sub (c :: cs) || containsChars sub cs

/-- The JavaScript expression `s.includes(sub)`. -/
def jsIncludes (s sub : String) : Bool :=
  containsChars sub.data s.data

/-- The profile fields the fallback block reads. -/
structure Profile where
  city : Option String
  cnae : Option String
  productCallout : Option String
deriving DecidableEq

/-- The per-run random style selections interpolated into the prompt
fallbacks, and the b-roll text appended to the video prompt. -/
structure PromptStyle where
  randomTimeOfDay : String
  randomEthnicity : String
  randomIdleAction : String
  safeBRollText : String
deriving DecidableEq

/-- The language-model response fields the fallback block completes. -/
structure PromptJson where
  image_prompt : Option String
  video_prompt : Option String
  overlay_text : Option String
  button_text : Option String
deriving DecidableEq

/-- The business type: `cnae.split(" - ")[1] || "loja"`, guarded by the
truthiness of the cnae field itself. -/
def businessTypeOf (cnae : Option String) : String :=
  match cnae with
  | none => "loja"
  | some c => if c = "" then "loja" else jsOrD (splitSecond " - " c) "loja"

/-- The fallback image prompt. -/
def imageFallbackText (p : Profile) (st : PromptStyle) : String :=
  let city := jsOrD p.city "Brasil"
  let businessType := businessTypeOf p.cnae
  let businessContext :=
    if jsIncludes businessType "instrumento" then
      ", ao fundo violões e instrumentos musicais"
    else ""
  st.randomTimeOfDay ++ ", interior de uma " ++ businessType ++
    " brasileira moderna, iluminação natural, ao fundo produtos e clientes" ++
    businessContext ++
    ", sem letreiros visíveis. Uma pessoa brasileira proprietária, " ++
    st.randomEthnicity ++ ", " ++ city ++ ", " ++ st.randomIdleAction ++
    ". Foto estilo selfie, perspectiva de primeira pessoa, ângulo de selfie, sem câmera visível."

/-- The business-specific spoken message of the fallback video prompt. -/
def videoFallbackMessage (p : Profile) : String :=
  let city := jsOrD p.city "sua cidade"
  let product := jsOrD p.productCallout "o Dinn"
  let businessType := businessTypeOf p.cnae
  if jsIncludes businessType "instrumento" || jsIncludes businessType "música" then
    "Iaí pessoal! Aqui na minha loja de instrumentos em " ++ city ++ ", " ++
      product ++ " organizou todo meu estoque! Agora sei exatamente qual violão tenho!"
  else if jsIncludes businessType "padaria" then
    "Bom dia! " ++ product ++ " transformou minha padaria em " ++ city ++
      "! Agora controlo pães, doces, tudo digitalizado!"
  else if jsIncludes businessType "farmácia" then
    "Oi gente! " ++ product ++ " organizou toda minha farmácia em " ++ city ++
      "! Controle de remédios nunca foi tão fácil!"
  else
    "Iaí pessoal! Aqui em " ++ city ++ ", " ++ product ++
      " triplicou meu faturamento! Negócio que era difícil ficou super fácil!"

/-- The fallback video prompt. -/
def videoFallbackText (p : Profile) (st : PromptStyle) : String :=
  let city := jsOrD p.city "sua cidade"
  let businessType := businessTypeOf p.cnae
  let businessContext :=
    if jsIncludes businessType "instrumento" then
      ", ao fundo violões e instrumentos musicais"
    else ""
  st.randomTimeOfDay ++ ", interior de uma " ++ businessType ++
    " brasileira moderna, iluminação natural, ao fundo produtos e clientes" ++
    businessContext ++
    ", sem letreiros visíveis. Uma pessoa brasileira proprietária, " ++
    st.randomEthnicity ++ ", " ++ city ++ ", " ++ st.randomIdleAction ++
    ". Foto estilo selfie, perspectiva de primeira pessoa, ângulo de selfie, sem câmera visível. Com a câmera Selfie VLOG, próxima ao rosto. Câmera subjetiva, POV.\n\nfala da pessoa: \"" ++
    videoFallbackMessage p ++ "\"" ++ st.safeBRollText

/-- The fallback block: each falsy field is replaced by its fallback, a
truthy field is kept. -/
def fillPromptFallbacks (p : Profile) (st : PromptStyle) (json : PromptJson) :
    PromptJson :=
  { image_prompt :=
      if tru json.image_prompt then json.image_prompt
      else some (imageFallbackText p st)
    video_prompt :=
      if tru json.video_prompt then json.video_prompt
      else some (videoFallbackText p st)
    overlay_text :=
      if tru json.overlay_text then json.overlay_text
      else some "Tap to Pay\nno iPhone"
    button_text :=
      if tru json.button_text then json.button_text
      else some "Começar a usar" }

/-- A profile with no optional fields set. -/
def emptyProfile : Profile := ⟨none, none, none⟩

/-- A language-model response with every field missing. -/
def emptyPromptJson : PromptJson := ⟨none, none, none, none⟩

/-- Style selections of a first run. -/
def styleRunOne : PromptStyle := ⟨"Amanhecer", "parda", "organizando a loja", ""⟩

/-- Style selections of a second run: the time-of-day draw differed. -/
def styleRunTwo : PromptStyle := ⟨"Noite", "parda", "organizando a loja", ""⟩

/-- C9, counterexample: two runs over the same profile, differing only in
the per-run random time-of-day selection, produce different fallback
texts for a missing image prompt — the fallback is not a function of the
profile alone. -/
theorem fallback_not_profile_deterministic :
    (fillPromptFallbacks emptyProfile styleRunOne emptyPromptJson).image_prompt ≠
      (fillPromptFallbacks emptyProfile styleRunTwo emptyPromptJson).image_prompt := by
  decide

/-- C9, amended: the fallback block supplies text for every missing
field; the overlay-text and button-text fallbacks are fixed constants,
identical across runs, while the image-prompt and video-prompt fallbacks
are deterministic functions of the profile together with the per-run
random style selections, not of the profile alone. -/
theorem fallbacks_supplied (p : Profile) (st st₂ : PromptStyle)
    (json : PromptJson) :
    (tru json.image_prompt = false →
      (fillPromptFallbacks p st json).image_prompt =
        some (imageFallbackText p st))
    ∧ (tru json.video_prompt = false →
      (fillPromptFallbacks p st json).video_prompt =
        some (videoFallbackText p st))
    ∧ (tru json.overlay_text = false →
      (fillPromptFallbacks p st json).overlay_text = some "Tap to Pay\nno iPhone"
      ∧ (fillPromptFallbacks p st json).overlay_text =
          (fillPromptFallbacks p st₂ json).overlay_text)
    ∧ (tru json.button_text = false →
      (fillPromptFallbacks p st json).button_text = some "Começar a usar"
      ∧ (fillPromptFallbacks p st json).button_text =
          (fillPromptFallbacks p st₂ json).button_text) := by
  refine ⟨?_, ?_, ?_, ?_⟩ <;> intro h <;> simp [fillPromptFallbacks, h]

/-- C9, witness for the amended theorem: on an empty response every field
receives its fallback, the overlay text being the fixed constant. -/
theorem fallbacks_supplied_witness :
    (fillPromptFallbacks emptyProfile styleRunOne emptyPromptJson).image_prompt =
      some (imageFallbackText emptyProfile styleRunOne)
    ∧ (fillPromptFallbacks emptyProfile styleRunOne emptyPromptJson).overlay_text =
      some "Tap to Pay\nno iPhone" :=
  ⟨(fallbacks_supplied emptyProfile styleRunOne styleRunTwo emptyPromptJson).1 rfl,
   ((fallbacks_supplied emptyProfile styleRunOne styleRunTwo emptyPromptJson).2.2.1 rfl).1⟩

end OmniDemo
